import Mathlib

/-!
Verification of the Cosmic-Impact deterministic Impact Analysis Engine
(`src/services/geminiService.ts`, local physics engine variant).

Embedding notes:
* JavaScript numbers are modelled as exact arithmetic: the input fields and the
  probability classifier (pure rational arithmetic in the source) use `ℚ`;
  derived physical quantities involving `Math.PI` and fractional `Math.pow`
  use `ℝ` with `Real.pi` and real exponentiation (`rpow`).
* `Number.prototype.toFixed(1)` followed by `parseFloat` rounds to one decimal
  place with ties toward +infinity, which is the Mathlib `round` function.
* String formatting of numerals (`toFixed`, `toExponential`, `toLocaleString`)
  is abstracted: a `DimensionalStep` keeps the displayed numeric value and its
  unit, and the summary template keeps its variable fields as a structured
  `Report` record.
* `timestamp` (`Date.now()`, wall clock, nondeterministic) is omitted from the
  embedded result record.
-/

namespace CosmicImpact

/-- The string values of the TypeScript enum `AsteroidType` (`src/types.ts`). -/
def AsteroidType.STONY : String := "Stony (Silicate)"

def AsteroidType.METALLIC : String := "Metallic (Iron-Nickel)"

def AsteroidType.ICY : String := "Icy (Cometary)"

def AsteroidType.CARBONACEOUS : String := "Carbonaceous (C-type)"

/-- `AsteroidInput` from `src/types.ts`. The `type` field carries the raw
enum string, so values outside the closed enum are representable (the source
handles them with a default density and an empty composition). -/
structure AsteroidInput where
  name : String
  diameter : ℚ
  velocity : ℚ
  distance : ℚ
  type : String

/-- `DENSITY_MAP` (kg/m³), keyed by the enum string values. -/
def DENSITY_MAP (t : String) : Option ℚ :=
  if t = AsteroidType.STONY then some 2700
  else if t = AsteroidType.METALLIC then some 7870
  else if t = AsteroidType.ICY then some 1000
  else if t = AsteroidType.CARBONACEOUS then some 1300
  else none

/-- `DENSITY_MAP[input.type] || 2500`: the JavaScript lookup-with-fallback
(all table densities are nonzero, so `||` is exactly `Option.getD`). -/
def densityOf (t : String) : ℚ := (DENSITY_MAP t).getD 2500

/-- `TNT_JOULES = 4.184e15`, one megaton of TNT in joules. -/
def TNT_JOULES : ℝ := 4.184e15

/-- `EARTH_RADIUS_KM = 6371`. -/
def EARTH_RADIUS_KM : ℚ := 6371

/-- `const radius = input.diameter / 2`. -/
def radius (input : AsteroidInput) : ℚ := input.diameter / 2

/-- `const volume = (4 / 3) * Math.PI * Math.pow(radius, 3)`. -/
noncomputable def volume (input : AsteroidInput) : ℝ :=
  (4 / 3) * Real.pi * (radius input : ℝ) ^ (3 : ℕ)

/-- `const mass = density * volume`. -/
noncomputable def mass (input : AsteroidInput) : ℝ :=
  (densityOf input.type : ℝ) * volume input

/-- `const velocityMs = input.velocity * 1000` (km/s to m/s). -/
def velocityMs (input : AsteroidInput) : ℚ := input.velocity * 1000

/-- `const energyJoules = 0.5 * mass * Math.pow(velocityMs, 2)`. -/
noncomputable def energyJoules (input : AsteroidInput) : ℝ :=
  0.5 * mass input * (velocityMs input : ℝ) ^ (2 : ℕ)

/-- `const energyMt = energyJoules / TNT_JOULES`. -/
noncomputable def energyMt (input : AsteroidInput) : ℝ :=
  energyJoules input / TNT_JOULES

/-- The impact-probability/hit classifier: the raw (pre-rounding) probability
together with the hit flag, exactly as the `if/else if/else` chain of the
source computes `impactProb` and `isHit` before the clean-up line. -/
def impactClassifier (distance : ℚ) : ℚ × Bool :=
  if distance < EARTH_RADIUS_KM + 2000 then (100, true)
  else if distance < 50000 then
    let closeLimit := EARTH_RADIUS_KM + 2000
    let outerLimit : ℚ := 50000
    let range := outerLimit - closeLimit
    let position := distance - closeLimit
    let prob := 100 * (1 - position / range)
    (prob, decide (prob > 60))
  else (0, false)

/-- `parseFloat(x.toFixed(1))`: round to one decimal place, ties toward
+infinity (the ECMAScript `toFixed` tie rule), as an exact rational. -/
def toFixed1 (q : ℚ) : ℚ := (round (10 * q) : ℚ) / 10

/-- `impactProb = Math.max(0, Math.min(100, parseFloat(impactProb.toFixed(1))))`. -/
def impactProbOf (distance : ℚ) : ℚ :=
  max 0 (min 100 (toFixed1 (impactClassifier distance).1))

/-- The `isHit` flag returned by the engine. -/
def isHitOf (distance : ℚ) : Bool := (impactClassifier distance).2

/-- Crater estimation, transient crater diameter scaling law:
`1.161 * (rho_i/rho_t)^(1/3) * L^0.78 * v^0.44 * g^(-0.22)` with
`rho_t = 2500`, `g = 9.81`, `L = input.diameter`, `v = velocityMs`.
`Math.pow` with a real exponent is real exponentiation (`rpow`). -/
noncomputable def craterDiameter (input : AsteroidInput) : ℝ :=
  let rho_i : ℝ := (densityOf input.type : ℝ)
  let rho_t : ℝ := 2500
  let L : ℝ := (input.diameter : ℝ)
  let v : ℝ := (velocityMs input : ℝ)
  let g : ℝ := 9.81
  let term1 := (rho_i / rho_t) ^ ((1 : ℝ) / 3)
  let term2 := L ^ (0.78 : ℝ)
  let term3 := v ^ (0.44 : ℝ)
  let term4 := g ^ (-0.22 : ℝ)
  1.161 * term1 * term2 * term3 * term4

/-- `DimensionalStep` from `src/types.ts`. The source `result` field is the
string `"<formatted value> <unit>"`; the numeral formatting is abstracted into
the displayed numeric value (`resultValue`) and its unit (`resultUnit`). -/
structure DimensionalStep where
  step : String
  equation : String
  explanation : String
  resultValue : ℝ
  resultUnit : String

/-- `CompositionElement` from `src/types.ts`. -/
structure CompositionElement where
  element : String
  percentage : ℚ
  fill : String

/-- The variable fields of the fixed `generateSummary` template, in template
order. The flat string rendering (including `toLocaleString` of numbers) is
abstracted into this record. -/
structure Report where
  target : String
  classification : String
  probability : ℚ
  status : String
  energyMegatons : ℝ
  threatLevel : String

/-- `AnalysisResult` from `src/types.ts` (minus the nondeterministic
`timestamp`); `analysisSummary` is the structured `Report`. -/
structure AnalysisResult where
  isHit : Bool
  impactProbability : ℚ
  kineticEnergyMegatons : ℝ
  craterSizeMeters : ℝ
  analysisSummary : Report
  dimensionalProcess : List DimensionalStep
  composition : List CompositionElement
  rawMarkdown : String

/-- The six "Show Your Work" steps, built from the same intermediate values
(`radius`, `volume`, `mass`, `velocityMs`, `energyJoules`, `energyMt`) the
engine computed for the numeric outputs. -/
noncomputable def dimensionalSteps (input : AsteroidInput) : List DimensionalStep :=
  [ { step := "Calculate Radius"
    , equation := "r = d / 2 = " ++ toString input.diameter ++ " / 2"
    , explanation := "Derive radius from diameter to determine spherical volume."
    , resultValue := (radius input : ℝ)
    , resultUnit := "m" }
  , { step := "Calculate Volume"
    , equation := "V = (4/3) * π * r^3"
    , explanation := "Compute volume of sphere."
    , resultValue := volume input
    , resultUnit := "m³" }
  , { step := "Derive Mass"
    , equation := "M = ρ * V"
    , explanation := "Calculate mass using " ++ input.type ++ " density ("
        ++ toString (densityOf input.type) ++ " kg/m³)."
    , resultValue := mass input
    , resultUnit := "kg" }
  , { step := "Velocity Conversion"
    , equation := "v_ms = v_km * 1000"
    , explanation := "Convert km/s to m/s for standard Joule calculation."
    , resultValue := (velocityMs input : ℝ)
    , resultUnit := "m/s" }
  , { step := "Kinetic Energy"
    , equation := "E_k = (1/2) * M * v^2"
    , explanation := "Compute kinetic energy using classical mechanics."
    , resultValue := energyJoules input
    , resultUnit := "J" }
  , { step := "TNT Equivalent"
    , equation := "MT = E_k / 4.184e15"
    , explanation := "Convert Joules to Megatons of TNT for impact context."
    , resultValue := energyMt input
    , resultUnit := "MT" } ]

/-- `getComposition`: the static per-type composition table; the `default`
arm of the `switch` returns the empty list. -/
def getComposition (type : String) : List CompositionElement :=
  if type = AsteroidType.STONY then
    [ ⟨"Silicates", 70, "#a8a29e"⟩
    , ⟨"Iron/Nickel", 15, "#94a3b8"⟩
    , ⟨"Pyroxene", 10, "#d6d3d1"⟩
    , ⟨"Olivine", 5, "#86efac"⟩ ]
  else if type = AsteroidType.METALLIC then
    [ ⟨"Iron", 85, "#64748b"⟩
    , ⟨"Nickel", 14, "#cbd5e1"⟩
    , ⟨"Iridium", 1, "#f1f5f9"⟩ ]
  else if type = AsteroidType.ICY then
    [ ⟨"Water Ice", 60, "#bfdbfe"⟩
    , ⟨"CO2 Ice", 20, "#e0f2fe"⟩
    , ⟨"Dust", 15, "#7dd3fc"⟩
    , ⟨"Organics", 5, "#0ea5e9"⟩ ]
  else if type = AsteroidType.CARBONACEOUS then
    [ ⟨"Carbon", 45, "#475569"⟩
    , ⟨"Water", 20, "#334155"⟩
    , ⟨"Silicates", 25, "#94a3b8"⟩
    , ⟨"Sulfides", 10, "#fbbf24"⟩ ]
  else []

/-- `generateSummary(name, isHit, energy, type, prob)`: the fixed-template
report. The severity tier (`energyStr`) buckets the energy in megatons; the
template renders `name.toUpperCase()` and `energyStr.toUpperCase()`. -/
noncomputable def generateSummary (name : String) (isHit : Bool) (energy : ℝ)
    (type : String) (prob : ℚ) : Report :=
  let energyStr :=
    if energy < 1 then "Local Damage"
    else if energy < 100 then "Regional Destruction"
    else if energy < 10000 then "Continental Catastrophe"
    else "Extinction Event"
  let status :=
    if isHit then "CRITICAL: IMPACT TRAJECTORY CONFIRMED."
    else "SAFE: NO INTERSECTION DETECTED."
  { target := name.toUpper
  , classification := type
  , probability := prob
  , status := status
  , energyMegatons := energy
  , threatLevel := energyStr.toUpper }

/-- The local physics engine `analyzeAsteroid` (the artificial UX delay and
the wall-clock `timestamp` are not part of the computed result). -/
noncomputable def analyzeAsteroid (input : AsteroidInput) : AnalysisResult :=
  { isHit := isHitOf input.distance
  , impactProbability := impactProbOf input.distance
  , kineticEnergyMegatons := energyMt input
  , craterSizeMeters := craterDiameter input
  , analysisSummary :=
      generateSummary input.name (isHitOf input.distance) (energyMt input)
        input.type (impactProbOf input.distance)
  , dimensionalProcess := dimensionalSteps input
  , composition := getComposition input.type
  , rawMarkdown := "Generated via Local Physics Engine." }

/-! ### Sample inputs used by witnesses and counterexamples -/

/-- A stony asteroid at Earth–Moon distance (the end-to-end example of the spec). -/
def sampleStony : AsteroidInput :=
  ⟨"Apophis", 50, 17, 384400, AsteroidType.STONY⟩

/-- An icy asteroid inside the decay band. -/
def sampleIcyA : AsteroidInput := ⟨"Alpha", 100, 20, 10000, AsteroidType.ICY⟩

/-- Another icy asteroid, differing from `sampleIcyA` in every other field. -/
def sampleIcyB : AsteroidInput := ⟨"Beta", 7, 3, 49999, AsteroidType.ICY⟩

/-! ### Helper lemmas about the classifier -/

theorem impactClassifier_low {d : ℚ} (h : d < 8371) :
    impactClassifier d = (100, true) := by
  simp only [impactClassifier, EARTH_RADIUS_KM]
  rw [if_pos (by linarith)]

theorem impactClassifier_mid {d : ℚ} (h1 : 8371 ≤ d) (h2 : d < 50000) :
    impactClassifier d =
      (100 * (1 - (d - 8371) / (50000 - 8371)),
        decide (100 * (1 - (d - 8371) / (50000 - 8371)) > 60)) := by
  simp only [impactClassifier, EARTH_RADIUS_KM]
  rw [if_neg (by linarith), if_pos (by linarith)]
  norm_num

theorem impactClassifier_high {d : ℚ} (h : 50000 ≤ d) :
    impactClassifier d = (0, false) := by
  simp only [impactClassifier, EARTH_RADIUS_KM]
  rw [if_neg (by linarith), if_neg (by linarith)]

theorem toFixed1_hundred : toFixed1 100 = 100 := by
  norm_num [toFixed1, round_eq]

theorem toFixed1_zero : toFixed1 0 = 0 := by
  norm_num [toFixed1, round_eq]

theorem toFixed1_mono {q r : ℚ} (h : q ≤ r) : toFixed1 q ≤ toFixed1 r := by
  unfold toFixed1
  have : round (10 * q) ≤ round (10 * r) := by
    rw [round_eq, round_eq]
    exact Int.floor_le_floor (by linarith)
  have hc : ((round (10 * q) : ℤ) : ℚ) ≤ ((round (10 * r) : ℤ) : ℚ) := by
    exact_mod_cast this
  linarith

/-- The raw (pre-rounding) probability is non-increasing in distance. -/
theorem impactClassifier_fst_antitone {d1 d2 : ℚ} (h : d1 ≤ d2) :
    (impactClassifier d2).1 ≤ (impactClassifier d1).1 := by
  have hmid_le_100 : ∀ d : ℚ, 8371 ≤ d →
      100 * (1 - (d - 8371) / (50000 - 8371)) ≤ 100 := by
    intro d hd
    have hdiv : 0 ≤ (d - 8371) / (50000 - 8371) :=
      div_nonneg (by linarith) (by norm_num)
    nlinarith
  have hmid_nonneg : ∀ d : ℚ, d < 50000 →
      0 ≤ 100 * (1 - (d - 8371) / (50000 - 8371)) := by
    intro d hd
    have hdiv : (d - 8371) / (50000 - 8371) ≤ 1 :=
      (div_le_one (by norm_num)).mpr (by linarith)
    nlinarith
  rcases lt_or_le d1 8371 with h1 | h1
  · rw [impactClassifier_low h1]
    rcases lt_or_le d2 8371 with h2 | h2
    · rw [impactClassifier_low h2]
    · rcases lt_or_le d2 50000 with h3 | h3
      · rw [impactClassifier_mid h2 h3]
        exact hmid_le_100 d2 h2
      · rw [impactClassifier_high h3]
        norm_num
  · rcases lt_or_le d1 50000 with h2 | h2
    · rw [impactClassifier_mid h1 h2]
      rcases lt_or_le d2 50000 with h3 | h3
      · rw [impactClassifier_mid (le_trans h1 h) h3]
        have hdd : (d1 - 8371) / (50000 - 8371) ≤ (d2 - 8371) / (50000 - 8371) := by
          gcongr
        nlinarith
      · rw [impactClassifier_high h3]
        exact hmid_nonneg d1 h2
    · rw [impactClassifier_high h2, impactClassifier_high (le_trans h2 h)]

theorem impactProbOf_antitone {d1 d2 : ℚ} (h : d1 ≤ d2) :
    impactProbOf d2 ≤ impactProbOf d1 := by
  unfold impactProbOf
  exact max_le_max le_rfl
    (min_le_min le_rfl (toFixed1_mono (impactClassifier_fst_antitone h)))

/-! ### Claim theorems -/

/-- C2: `impactProbability` and `isHit` follow the piecewise rule on
`distance`: below 8371 km the probability is 100 and `isHit` is true; in
`[8371, 50000)` the probability is `100·(1 − (distance − 8371)/(50000 − 8371))`
with `isHit` iff that probability exceeds 60; at or above 50000 km the
probability is 0 and `isHit` is false; the returned `impactProbability` is the
branch probability rounded to one decimal place and clamped to `[0, 100]`. -/
theorem impactProbability_piecewise (input : AsteroidInput) :
    (input.distance < 8371 →
      (analyzeAsteroid input).impactProbability = 100 ∧
      (analyzeAsteroid input).isHit = true) ∧
    (8371 ≤ input.distance → input.distance < 50000 →
      (analyzeAsteroid input).impactProbability =
        max 0 (min 100
          (toFixed1 (100 * (1 - (input.distance - 8371) / (50000 - 8371))))) ∧
      (analyzeAsteroid input).isHit =
        decide (100 * (1 - (input.distance - 8371) / (50000 - 8371)) > 60)) ∧
    (50000 ≤ input.distance →
      (analyzeAsteroid input).impactProbability = 0 ∧
      (analyzeAsteroid input).isHit = false) := by
  have hp : (analyzeAsteroid input).impactProbability = impactProbOf input.distance := rfl
  have hh : (analyzeAsteroid input).isHit = isHitOf input.distance := rfl
  refine ⟨fun h => ?_, fun h1 h2 => ?_, fun h => ?_⟩
  · rw [hp, hh]
    unfold impactProbOf isHitOf
    rw [impactClassifier_low h]
    rw [toFixed1_hundred]
    norm_num
  · rw [hp, hh]
    unfold impactProbOf isHitOf
    rw [impactClassifier_mid h1 h2]
    exact ⟨rfl, rfl⟩
  · rw [hp, hh]
    unfold impactProbOf isHitOf
    rw [impactClassifier_high h]
    rw [toFixed1_zero]
    norm_num

/-- Witness for C2: one concrete input in each branch of the classifier. -/
theorem impactProbability_piecewise_witness :
    ((analyzeAsteroid ⟨"W1", 50, 17, 100, AsteroidType.STONY⟩).impactProbability = 100 ∧
      (analyzeAsteroid ⟨"W1", 50, 17, 100, AsteroidType.STONY⟩).isHit = true) ∧
    ((analyzeAsteroid ⟨"W2", 50, 17, 20000, AsteroidType.STONY⟩).impactProbability =
        max 0 (min 100 (toFixed1 (100 * (1 - ((20000 : ℚ) - 8371) / (50000 - 8371))))) ∧
      (analyzeAsteroid ⟨"W2", 50, 17, 20000, AsteroidType.STONY⟩).isHit =
        decide (100 * (1 - ((20000 : ℚ) - 8371) / (50000 - 8371)) > 60)) ∧
    ((analyzeAsteroid ⟨"W3", 50, 17, 384400, AsteroidType.STONY⟩).impactProbability = 0 ∧
      (analyzeAsteroid ⟨"W3", 50, 17, 384400, AsteroidType.STONY⟩).isHit = false) :=
  ⟨(impactProbability_piecewise ⟨"W1", 50, 17, 100, AsteroidType.STONY⟩).1 (by norm_num),
   (impactProbability_piecewise ⟨"W2", 50, 17, 20000, AsteroidType.STONY⟩).2.1
     (by norm_num) (by norm_num),
   (impactProbability_piecewise ⟨"W3", 50, 17, 384400, AsteroidType.STONY⟩).2.2
     (by norm_num)⟩

/-- C7: for two inputs agreeing on every field except `distance`, with
`0 ≤ d1 ≤ d2`, the returned (rounded and clamped) `impactProbability` at `d1`
is at least the one at `d2`. -/
theorem impactProbability_antitone (i1 i2 : AsteroidInput)
    (_hname : i1.name = i2.name) (_hdia : i1.diameter = i2.diameter)
    (_hvel : i1.velocity = i2.velocity) (_htype : i1.type = i2.type)
    (_h0 : 0 ≤ i1.distance) (hd : i1.distance ≤ i2.distance) :
    (analyzeAsteroid i2).impactProbability ≤ (analyzeAsteroid i1).impactProbability :=
  impactProbOf_antitone hd

/-- Witness for C7: distances 10000 and 20000 with all other fields equal. -/
theorem impactProbability_antitone_witness :
    (analyzeAsteroid ⟨"W", 50, 17, 20000, AsteroidType.STONY⟩).impactProbability ≤
      (analyzeAsteroid ⟨"W", 50, 17, 10000, AsteroidType.STONY⟩).impactProbability :=
  impactProbability_antitone ⟨"W", 50, 17, 10000, AsteroidType.STONY⟩
    ⟨"W", 50, 17, 20000, AsteroidType.STONY⟩ rfl rfl rfl rfl (by norm_num) (by norm_num)

/-- C10: a negative distance is not rejected: it satisfies the first branch of
the classifier, so the result has `impactProbability = 100` and `isHit = true`,
exactly as for any distance below 8371 km. -/
theorem negative_distance_first_branch (input : AsteroidInput)
    (h : input.distance < 0) :
    (analyzeAsteroid input).impactProbability = 100 ∧
    (analyzeAsteroid input).isHit = true := by
  have hp : (analyzeAsteroid input).impactProbability = impactProbOf input.distance := rfl
  have hh : (analyzeAsteroid input).isHit = isHitOf input.distance := rfl
  rw [hp, hh]
  unfold impactProbOf isHitOf
  rw [impactClassifier_low (by linarith)]
  rw [toFixed1_hundred]
  norm_num

/-- Witness for C10: a concrete input with distance −5 km. -/
theorem negative_distance_first_branch_witness :
    (analyzeAsteroid ⟨"W", 50, 17, -5, AsteroidType.STONY⟩).impactProbability = 100 ∧
    (analyzeAsteroid ⟨"W", 50, 17, -5, AsteroidType.STONY⟩).isHit = true :=
  negative_distance_first_branch ⟨"W", 50, 17, -5, AsteroidType.STONY⟩ (by norm_num)

theorem densityOf_pos (t : String) : 0 < densityOf t := by
  unfold densityOf DENSITY_MAP
  split_ifs <;> norm_num

/-- C1: for positive diameter and velocity and a type in the closed enum, the
returned kinetic energy in megatons is
`0.5 · density(type) · (4/3)·π·(diameter/2)³ · (velocity·1000)² / 4.184e15`,
with the densities Stony 2700, Metallic 7870, Icy 1000, Carbonaceous 1300 and
the km/s→m/s conversion applied before squaring. -/
theorem kineticEnergy_formula (input : AsteroidInput)
    (_hd : 0 < input.diameter) (_hv : 0 < input.velocity)
    (_ht : input.type = AsteroidType.STONY ∨ input.type = AsteroidType.METALLIC ∨
      input.type = AsteroidType.ICY ∨ input.type = AsteroidType.CARBONACEOUS) :
    densityOf AsteroidType.STONY = 2700 ∧ densityOf AsteroidType.METALLIC = 7870 ∧
    densityOf AsteroidType.ICY = 1000 ∧ densityOf AsteroidType.CARBONACEOUS = 1300 ∧
    (analyzeAsteroid input).kineticEnergyMegatons =
      0.5 * (densityOf input.type : ℝ) *
        ((4 / 3) * Real.pi * ((input.diameter : ℝ) / 2) ^ (3 : ℕ)) *
        ((input.velocity : ℝ) * 1000) ^ (2 : ℕ) / 4.184e15 := by
  refine ⟨rfl, rfl, rfl, rfl, ?_⟩
  show energyMt input = _
  unfold energyMt energyJoules mass volume radius velocityMs TNT_JOULES
  push_cast
  ring

/-- Witness for C1: the end-to-end example input of the spec (50 m stony asteroid
at 17 km/s, Earth–Moon distance). -/
theorem kineticEnergy_formula_witness :
    densityOf AsteroidType.STONY = 2700 ∧ densityOf AsteroidType.METALLIC = 7870 ∧
    densityOf AsteroidType.ICY = 1000 ∧ densityOf AsteroidType.CARBONACEOUS = 1300 ∧
    (analyzeAsteroid sampleStony).kineticEnergyMegatons =
      0.5 * (densityOf sampleStony.type : ℝ) *
        ((4 / 3) * Real.pi * ((sampleStony.diameter : ℝ) / 2) ^ (3 : ℕ)) *
        ((sampleStony.velocity : ℝ) * 1000) ^ (2 : ℕ) / 4.184e15 :=
  kineticEnergy_formula sampleStony (by norm_num [sampleStony])
    (by norm_num [sampleStony]) (Or.inl rfl)

/-- C6: the returned crater size is
`1.161 · (density(type)/2500)^(1/3) · diameter^0.78 · (velocity·1000)^0.44 · 9.81^(−0.22)`,
and it is strictly positive for a valid input (positive diameter, and the
positive velocity the input contract requires). -/
theorem craterSize_formula (input : AsteroidInput)
    (hd : 0 < input.diameter) (hv : 0 < input.velocity) :
    (analyzeAsteroid input).craterSizeMeters =
      1.161 * ((densityOf input.type : ℝ) / 2500) ^ ((1 : ℝ) / 3) *
        (input.diameter : ℝ) ^ (0.78 : ℝ) *
        ((input.velocity : ℝ) * 1000) ^ (0.44 : ℝ) *
        (9.81 : ℝ) ^ (-0.22 : ℝ) ∧
    0 < (analyzeAsteroid input).craterSizeMeters := by
  have hform : (analyzeAsteroid input).craterSizeMeters =
      1.161 * ((densityOf input.type : ℝ) / 2500) ^ ((1 : ℝ) / 3) *
        (input.diameter : ℝ) ^ (0.78 : ℝ) *
        ((input.velocity : ℝ) * 1000) ^ (0.44 : ℝ) *
        (9.81 : ℝ) ^ (-0.22 : ℝ) := by
    show craterDiameter input = _
    simp only [craterDiameter]
    push_cast [velocityMs]
    ring
  refine ⟨hform, ?_⟩
  rw [hform]
  have hd' : (0 : ℝ) < (input.diameter : ℝ) := by exact_mod_cast hd
  have hv' : (0 : ℝ) < (input.velocity : ℝ) := by exact_mod_cast hv
  have hρ : (0 : ℝ) < (densityOf input.type : ℝ) := by
    exact_mod_cast densityOf_pos input.type
  positivity

/-- Witness for C6: the end-to-end sample input. -/
theorem craterSize_formula_witness :
    (analyzeAsteroid sampleStony).craterSizeMeters =
      1.161 * ((densityOf sampleStony.type : ℝ) / 2500) ^ ((1 : ℝ) / 3) *
        (sampleStony.diameter : ℝ) ^ (0.78 : ℝ) *
        ((sampleStony.velocity : ℝ) * 1000) ^ (0.44 : ℝ) *
        (9.81 : ℝ) ^ (-0.22 : ℝ) ∧
    0 < (analyzeAsteroid sampleStony).craterSizeMeters :=
  craterSize_formula sampleStony (by norm_num [sampleStony]) (by norm_num [sampleStony])

/-- C9: the engine is a total function of its input (the embedding carries no
error path, matching the source, which throws nowhere in the local path), and
the degenerate diameter 0 yields zero volume, mass, kinetic energy and crater
size rather than an error. -/
theorem degenerate_diameter_zero (name : String) (v dist : ℚ) (t : String) :
    volume ⟨name, 0, v, dist, t⟩ = 0 ∧
    mass ⟨name, 0, v, dist, t⟩ = 0 ∧
    (analyzeAsteroid ⟨name, 0, v, dist, t⟩).kineticEnergyMegatons = 0 ∧
    (analyzeAsteroid ⟨name, 0, v, dist, t⟩).craterSizeMeters = 0 := by
  have hvol : volume ⟨name, 0, v, dist, t⟩ = 0 := by
    norm_num [volume, radius]
  have hmass : mass ⟨name, 0, v, dist, t⟩ = 0 := by
    rw [mass, hvol, mul_zero]
  refine ⟨hvol, hmass, ?_, ?_⟩
  · show energyMt _ = 0
    rw [energyMt, energyJoules, hmass]
    ring
  · show craterDiameter _ = 0
    simp only [craterDiameter]
    have hL : ((⟨name, 0, v, dist, t⟩ : AsteroidInput).diameter : ℝ) ^ (0.78 : ℝ) = 0 := by
      show ((0 : ℚ) : ℝ) ^ (0.78 : ℝ) = 0
      rw [Rat.cast_zero, Real.zero_rpow]
      norm_num
    rw [hL]
    ring

/-- C3: the source performs no input validation: a negative diameter flows
through the arithmetic and the engine returns a result with a negative
kinetic energy instead of rejecting the call. -/
theorem negative_diameter_negative_energy :
    (analyzeAsteroid ⟨"Rogue", -2, 17, 384400, AsteroidType.STONY⟩).kineticEnergyMegatons
      < 0 := by
  show energyMt _ < 0
  unfold energyMt energyJoules mass volume radius velocityMs TNT_JOULES
  rw [show densityOf (⟨"Rogue", -2, 17, 384400, AsteroidType.STONY⟩ :
    AsteroidInput).type = 2700 from rfl]
  have hπ := Real.pi_pos
  push_cast
  nlinarith

/-- C4: the derivation trace has exactly six steps, in the fixed order, and
each displayed value is the same intermediate (`radius`, `volume`, `mass`,
`velocityMs`, `energyJoules`, `energyMt`) used for the numeric outputs — in
particular the sixth step displays exactly the returned
`kineticEnergyMegatons`. -/
theorem dimensionalProcess_structure (input : AsteroidInput) :
    (analyzeAsteroid input).dimensionalProcess.length = 6 ∧
    (analyzeAsteroid input).dimensionalProcess.map DimensionalStep.step =
      ["Calculate Radius", "Calculate Volume", "Derive Mass",
       "Velocity Conversion", "Kinetic Energy", "TNT Equivalent"] ∧
    (analyzeAsteroid input).dimensionalProcess.map DimensionalStep.resultValue =
      [(radius input : ℝ), volume input, mass input, (velocityMs input : ℝ),
       energyJoules input, energyMt input] ∧
    (analyzeAsteroid input).kineticEnergyMegatons = energyMt input :=
  ⟨rfl, rfl, rfl, rfl⟩

theorem getComposition_stony :
    getComposition AsteroidType.STONY =
      [ ⟨"Silicates", 70, "#a8a29e"⟩, ⟨"Iron/Nickel", 15, "#94a3b8"⟩
      , ⟨"Pyroxene", 10, "#d6d3d1"⟩, ⟨"Olivine", 5, "#86efac"⟩ ] := rfl

theorem getComposition_metallic :
    getComposition AsteroidType.METALLIC =
      [ ⟨"Iron", 85, "#64748b"⟩, ⟨"Nickel", 14, "#cbd5e1"⟩
      , ⟨"Iridium", 1, "#f1f5f9"⟩ ] := rfl

theorem getComposition_icy :
    getComposition AsteroidType.ICY =
      [ ⟨"Water Ice", 60, "#bfdbfe"⟩, ⟨"CO2 Ice", 20, "#e0f2fe"⟩
      , ⟨"Dust", 15, "#7dd3fc"⟩, ⟨"Organics", 5, "#0ea5e9"⟩ ] := rfl

theorem getComposition_carbonaceous :
    getComposition AsteroidType.CARBONACEOUS =
      [ ⟨"Carbon", 45, "#475569"⟩, ⟨"Water", 20, "#334155"⟩
      , ⟨"Silicates", 25, "#94a3b8"⟩, ⟨"Sulfides", 10, "#fbbf24"⟩ ] := rfl

/-- C5: the composition depends only on the type; each recognized type maps
to a fixed list (four entries for Stony, Icy and Carbonaceous, three for
Metallic) whose percentages sum to exactly 100, and an unrecognized type
yields the empty list rather than an error. -/
theorem composition_static :
    (∀ i1 i2 : AsteroidInput, i1.type = i2.type →
      (analyzeAsteroid i1).composition = (analyzeAsteroid i2).composition) ∧
    ((getComposition AsteroidType.STONY).length = 4 ∧
      ((getComposition AsteroidType.STONY).map CompositionElement.percentage).sum
        = 100) ∧
    ((getComposition AsteroidType.METALLIC).length = 3 ∧
      ((getComposition AsteroidType.METALLIC).map CompositionElement.percentage).sum
        = 100) ∧
    ((getComposition AsteroidType.ICY).length = 4 ∧
      ((getComposition AsteroidType.ICY).map CompositionElement.percentage).sum
        = 100) ∧
    ((getComposition AsteroidType.CARBONACEOUS).length = 4 ∧
      ((getComposition AsteroidType.CARBONACEOUS).map
        CompositionElement.percentage).sum = 100) ∧
    (∀ t : String, t ≠ AsteroidType.STONY → t ≠ AsteroidType.METALLIC →
      t ≠ AsteroidType.ICY → t ≠ AsteroidType.CARBONACEOUS →
      getComposition t = []) := by
  refine ⟨?_, ⟨rfl, ?_⟩, ⟨rfl, ?_⟩, ⟨rfl, ?_⟩, ⟨rfl, ?_⟩, ?_⟩
  · intro i1 i2 h
    show getComposition i1.type = getComposition i2.type
    rw [h]
  · rw [getComposition_stony]; norm_num
  · rw [getComposition_metallic]; norm_num
  · rw [getComposition_icy]; norm_num
  · rw [getComposition_carbonaceous]; norm_num
  · intro t h1 h2 h3 h4
    unfold getComposition
    rw [if_neg h1, if_neg h2, if_neg h3, if_neg h4]

/-- Witness for C5: two inputs sharing only the type have equal compositions,
and a string outside the enum gets the empty composition. -/
theorem composition_static_witness :
    (analyzeAsteroid sampleIcyA).composition = (analyzeAsteroid sampleIcyB).composition ∧
    getComposition ("Unknown") = [] :=
  ⟨composition_static.1 sampleIcyA sampleIcyB rfl,
   composition_static.2.2.2.2.2 ("Unknown") (by decide) (by decide) (by decide)
     (by decide)⟩

/-- Counterexample for C8: the fixed-template report is not placed in
`rawMarkdown`: at two concrete inputs whose reports differ (different target
names), `rawMarkdown` is the same constant acknowledgement string
`"Generated via Local Physics Engine."`. -/
theorem rawMarkdown_not_report :
    (analyzeAsteroid sampleIcyA).rawMarkdown = "Generated via Local Physics Engine." ∧
    (analyzeAsteroid sampleIcyA).rawMarkdown = (analyzeAsteroid sampleIcyB).rawMarkdown ∧
    (analyzeAsteroid sampleIcyA).analysisSummary ≠
      (analyzeAsteroid sampleIcyB).analysisSummary := by
  refine ⟨rfl, rfl, fun h => ?_⟩
  have ht := congrArg Report.probability h
  have hA : (analyzeAsteroid sampleIcyA).analysisSummary.probability =
      impactProbOf 10000 := rfl
  have hB : (analyzeAsteroid sampleIcyB).analysisSummary.probability =
      impactProbOf 49999 := rfl
  rw [hA, hB] at ht
  have h1 : impactProbOf 10000 = 961 / 10 := by
    norm_num [impactProbOf, impactClassifier, toFixed1, EARTH_RADIUS_KM, round_eq]
  have h2 : impactProbOf 49999 = 0 := by
    norm_num [impactProbOf, impactClassifier, toFixed1, EARTH_RADIUS_KM, round_eq]
  rw [h1, h2] at ht
  exact absurd ht (by norm_num)

/-- C8 (amended): the severity tier is selected by the stated strict
thresholds on `kineticEnergyMegatons`; the fixed-template report (upper-cased
name, type label, probability, hit/miss status line, energy value, upper-cased
severity tier) is placed in `analysisSummary` only, while `rawMarkdown` is
always the constant string `"Generated via Local Physics Engine."`. -/
theorem summary_template (input : AsteroidInput) :
    (analyzeAsteroid input).analysisSummary.threatLevel =
      (if (analyzeAsteroid input).kineticEnergyMegatons < 1 then "Local Damage"
       else if (analyzeAsteroid input).kineticEnergyMegatons < 100 then
         "Regional Destruction"
       else if (analyzeAsteroid input).kineticEnergyMegatons < 10000 then
         "Continental Catastrophe"
       else "Extinction Event").toUpper ∧
    (analyzeAsteroid input).analysisSummary.status =
      (if (analyzeAsteroid input).isHit then "CRITICAL: IMPACT TRAJECTORY CONFIRMED."
       else "SAFE: NO INTERSECTION DETECTED.") ∧
    (analyzeAsteroid input).analysisSummary.target = input.name.toUpper ∧
    (analyzeAsteroid input).analysisSummary.classification = input.type ∧
    (analyzeAsteroid input).analysisSummary.probability =
      (analyzeAsteroid input).impactProbability ∧
    (analyzeAsteroid input).analysisSummary.energyMegatons =
      (analyzeAsteroid input).kineticEnergyMegatons ∧
    (analyzeAsteroid input).rawMarkdown = "Generated via Local Physics Engine." :=
  ⟨rfl, rfl, rfl, rfl, rfl, rfl, rfl⟩

end CosmicImpact
